import Mathlib

/-!
Shallow embedding of the WinServerManager supervision core
(`src/services/serverManager.ts`, class `ServerManager`), covering the
lifecycle state machine (`startServer`, `stopServer`, the `exit` and
`error` process handlers), the installation pipeline (`installServer` /
`executeInstallStep`), metrics collection (`updateServerMetrics`),
backups (`createBackup`) and deletion (`deleteServer`).

The JavaScript `Map` objects `servers` and `processes` are modelled as
association lists with `get`/`set`/`delete` operations; Node's
`ChildProcess` is modelled with its `killed` flag following Node
semantics: `killed` records that a signal was successfully *sent*, not
that the process has exited.
-/

/-- Status values of the `ServerStatus` enum in `src/types/index.ts`. -/
inductive ServerStatus
  | stopped
  | starting
  | running
  | stopping
  | crashed
  | updating
  | backupInProgress
  | restoring
deriving DecidableEq, BEq, Repr

/-- Model of a Node `ChildProcess` handle. `killed` follows Node semantics:
it becomes true when a signal was successfully sent via `kill()`, whether or
not the process has terminated. `exited` is the ground truth of whether the
OS process has terminated, and `sigkillSent` records whether a SIGKILL was
ever delivered (an observation used to reason about forced kills). -/
structure ChildProcess where
  pid : Nat
  killed : Bool
  exited : Bool
  sigkillSent : Bool
deriving DecidableEq, Repr

def sigterm : String := "SIGTERM"

def sigkill : String := "SIGKILL"

/-- Node `ChildProcess.kill(signal)`: marks `killed` and records a SIGKILL
delivery when the signal is SIGKILL. -/
def ChildProcess.kill (p : ChildProcess) (signal : String) : ChildProcess :=
  { p with killed := true, sigkillSent := p.sigkillSent || (signal == sigkill) }

/-- A backup record (`Backup` interface in `src/types/index.ts`). -/
structure Backup where
  id : String
  serverId : String
  name : String
  size : Nat
  path : String
  createdAt : Nat
deriving DecidableEq, Repr

/-- The fields of the `Server` interface that the supervision core reads or
writes. Timestamps are `Nat` milliseconds. -/
structure Server where
  id : String
  name : String
  status : ServerStatus
  pid : Option Nat
  autoRestart : Bool
  lastStarted : Option Nat
  memory : Nat
  cpu : Nat
  uptime : Nat
  currentPlayers : Nat
  backups : List Backup
  logs : List String
deriving DecidableEq, Repr

/-- Association-list model of a JavaScript `Map String α`: lookup of the
first matching key. -/
def JsMap.get {α : Type} : List (String × α) → String → Option α
  | [], _ => none
  | (k, v) :: rest, k' => if k = k' then some v else JsMap.get rest k'

/-- `Map.set`: replace the first entry with the key, or append a new one. -/
def JsMap.set {α : Type} : List (String × α) → String → α → List (String × α)
  | [], k, v => [(k, v)]
  | (k₀, v₀) :: rest, k, v =>
      if k₀ = k then (k, v) :: rest else (k₀, v₀) :: JsMap.set rest k v

/-- `Map.delete`: remove every entry with the key (a JS map holds at most
one entry per key, so this coincides with deleting that entry). -/
def JsMap.delete {α : Type} : List (String × α) → String → List (String × α)
  | [], _ => []
  | (k₀, v₀) :: rest, k =>
      if k₀ = k then JsMap.delete rest k else (k₀, v₀) :: JsMap.delete rest k

theorem JsMap.get_set_self {α : Type} (m : List (String × α)) (k : String) (v : α) :
    JsMap.get (JsMap.set m k v) k = some v := by
  induction m with
  | nil => simp [JsMap.get, JsMap.set]
  | cons hd tl ih =>
      obtain ⟨k₀, v₀⟩ := hd
      by_cases h : k₀ = k <;> simp [JsMap.get, JsMap.set, h, ih]

theorem JsMap.get_set_ne {α : Type} (m : List (String × α)) (k j : String) (v : α)
    (hne : j ≠ k) : JsMap.get (JsMap.set m k v) j = JsMap.get m j := by
  induction m with
  | nil => simp [JsMap.get, JsMap.set, Ne.symm hne]
  | cons hd tl ih =>
      obtain ⟨k₀, v₀⟩ := hd
      by_cases h : k₀ = k
      · subst h
        simp [JsMap.get, JsMap.set, Ne.symm hne]
      · simp [JsMap.get, JsMap.set, h, ih]

theorem JsMap.get_delete_self {α : Type} (m : List (String × α)) (k : String) :
    JsMap.get (JsMap.delete m k) k = none := by
  induction m with
  | nil => rfl
  | cons hd tl ih =>
      obtain ⟨k₀, v₀⟩ := hd
      by_cases h : k₀ = k
      · simpa [JsMap.delete, h] using ih
      · simpa [JsMap.delete, JsMap.get, h] using ih

theorem JsMap.get_delete_ne {α : Type} (m : List (String × α)) (k j : String)
    (hne : j ≠ k) : JsMap.get (JsMap.delete m k) j = JsMap.get m j := by
  induction m with
  | nil => rfl
  | cons hd tl ih =>
      obtain ⟨k₀, v₀⟩ := hd
      by_cases h : k₀ = k
      · subst h
        simpa [JsMap.delete, JsMap.get, Ne.symm hne] using ih
      · simp [JsMap.delete, JsMap.get, h, ih]

/-- The in-memory state of `ServerManager`: the `servers` registry and the
`processes` map of live child-process handles. -/
structure ManagerState where
  servers : List (String × Server)
  processes : List (String × ChildProcess)
deriving DecidableEq, Repr

/-- Status of the server bound to an id, when present. -/
def statusAt (st : ManagerState) (serverId : String) : Option ServerStatus :=
  (JsMap.get st.servers serverId).map Server.status

/-- Pid field of the server bound to an id, when present. -/
def pidAt (st : ManagerState) (serverId : String) : Option (Option Nat) :=
  (JsMap.get st.servers serverId).map Server.pid

/-- Child-process handle bound to an id, when present. -/
def procAt (st : ManagerState) (serverId : String) : Option ChildProcess :=
  JsMap.get st.processes serverId

/-- The non-metric fields of a server: everything except the live resource
snapshot (`memory`, `cpu`, `uptime`) and `currentPlayers`. -/
def Server.core (s : Server) :
    String × String × ServerStatus × Option Nat × Bool × Option Nat ×
      List Backup × List String :=
  (s.id, s.name, s.status, s.pid, s.autoRestart, s.lastStarted, s.backups, s.logs)

/-- Non-metric fields of the server bound to an id, when present. -/
def coreAt (st : ManagerState) (serverId : String) :=
  (JsMap.get st.servers serverId).map Server.core

/-- Fixed auto-restart cool-down delay (`setTimeout(..., 5000)` in the exit
handler). -/
def autoRestartDelayMs : Nat := 5000

/-- Fixed stop grace period (`setTimeout(..., 10000)` in `stopServer`). -/
def stopGraceMs : Nat := 10000

/-- Outcome of `startServer`: the method throws when the id is unknown or the
spawn throws, returns `false` when the guard `status === RUNNING` fires, and
returns `true` after a successful spawn. -/
inductive StartResult
  | notFound
  | alreadyRunning
  | started
  | spawnFailed
deriving DecidableEq, Repr

/-- Server mutation performed by `startServer` on a successful spawn
(lines 336-338 of `serverManager.ts`): record the pid and last-start time
and move to RUNNING. -/
def Server.applyStart (s : Server) (newPid : Nat) (now : Nat) : Server :=
  { s with pid := some newPid, lastStarted := some now, status := .running }

/-- `ServerManager.startServer` (serverManager.ts lines 306-358). The only
rejection guard is `status === RUNNING`, which returns `false` without
spawning; any other status proceeds to spawn. A throwing spawn is modelled
by `spawnOk = false`: the catch block resets the status to STOPPED and
rethrows. The transient STARTING status written before the spawn is an
intermediate state of the same call and is not a separate step here. -/
def startServer (st : ManagerState) (serverId : String) (spawnOk : Bool)
    (newPid : Nat) (now : Nat) : ManagerState × StartResult :=
  match JsMap.get st.servers serverId with
  | none => (st, .notFound)
  | some server =>
      if server.status = .running then
        (st, .alreadyRunning)
      else if spawnOk then
        let proc : ChildProcess :=
          { pid := newPid, killed := false, exited := false, sigkillSent := false }
        ({ servers := JsMap.set st.servers serverId (server.applyStart newPid now),
           processes := JsMap.set st.processes serverId proc }, .started)
      else
        ({ st with
           servers := JsMap.set st.servers serverId { server with status := .stopped } },
         .spawnFailed)

/-- Outcome of `stopServer`: throws on unknown id, otherwise returns `true`. -/
inductive StopResult
  | notFound
  | success
deriving DecidableEq, Repr

/-- Server mutation of the `stopServer` branch taken when no process handle
is bound (lines 370-374): the status is set to STOPPED unconditionally and
`true` is returned; the pid field is not touched. -/
def Server.applyStopNoProc (s : Server) : Server :=
  { s with status := .stopped }

/-- `ServerManager.stopServer` (serverManager.ts lines 363-402). With a bound
process handle the status moves to STOPPING and a SIGKILL (`force`) or
SIGTERM (graceful) is sent; the method returns immediately, before the exit
event. The 10s escalation body scheduled on the graceful path is modelled
separately as `stopTimeoutCallback` since it runs later. -/
def stopServer (st : ManagerState) (serverId : String) (force : Bool) :
    ManagerState × StopResult :=
  match JsMap.get st.servers serverId with
  | none => (st, .notFound)
  | some server =>
      match JsMap.get st.processes serverId with
      | none =>
          ({ st with
             servers := JsMap.set st.servers serverId server.applyStopNoProc },
           .success)
      | some proc =>
          let server' := { server with status := .stopping }
          let proc' := if force then proc.kill sigkill else proc.kill sigterm
          ({ servers := JsMap.set st.servers serverId server',
             processes := JsMap.set st.processes serverId proc' }, .success)

/-- Body of the `setTimeout` scheduled by the graceful `stopServer` path
(lines 388-393): after `stopGraceMs`, send SIGKILL only if `!process.killed`.
Node sets `killed` as soon as the SIGTERM was delivered, regardless of
whether the process exited. -/
def stopTimeoutCallback (proc : ChildProcess) : ChildProcess :=
  if !proc.killed then proc.kill sigkill else proc

/-- Server mutation of the `exit` handler (lines 417-418): the next status is
decided solely by `code === 0`; the pid is cleared. -/
def Server.applyExit (s : Server) (code : Option Int) : Server :=
  { s with status := if code = some 0 then .stopped else .crashed, pid := none }

/-- The `process.on('exit')` handler installed by `setupProcessHandlers`
(serverManager.ts lines 411-428). `code` is Node's exit code (`none` when the
process was terminated by a signal). The handler removes the process handle,
applies `Server.applyExit`, and schedules a single auto-restart attempt after
`autoRestartDelayMs` exactly when `autoRestart && code !== 0`; the returned
`Option Nat` is the scheduled delay. -/
def onProcessExit (st : ManagerState) (serverId : String) (code : Option Int) :
    ManagerState × Option Nat :=
  match JsMap.get st.servers serverId with
  | none => (st, none)
  | some server =>
      let restart :=
        if server.autoRestart ∧ code ≠ some 0 then some autoRestartDelayMs else none
      ({ servers := JsMap.set st.servers serverId (server.applyExit code),
         processes := JsMap.delete st.processes serverId }, restart)

/-- Server mutation of the `error` handler (lines 430-435): the status is set
to CRASHED; neither the pid field nor the process map entry is cleared. -/
def Server.applyError (s : Server) : Server :=
  { s with status := .crashed }

/-- The `process.on('error')` handler installed by `setupProcessHandlers`
(serverManager.ts lines 430-435). -/
def onProcessError (st : ManagerState) (serverId : String) : ManagerState :=
  match JsMap.get st.servers serverId with
  | none => st
  | some server =>
      { st with servers := JsMap.set st.servers serverId server.applyError }

/-- Outcome of `deleteServer`: throws on unknown id. -/
inductive DeleteResult
  | notFound
  | deleted
deriving DecidableEq, Repr

/-- `ServerManager.deleteServer` (serverManager.ts lines 561-582). A force
stop is issued only when the status is exactly RUNNING, and the method
proceeds immediately without waiting for the exit event; the entry is then
removed from the registry. The `processes` map is never touched here (only
the exit handler deletes from it). File deletion is a filesystem effect
outside the registry state. -/
def deleteServer (st : ManagerState) (serverId : String) :
    ManagerState × DeleteResult :=
  match JsMap.get st.servers serverId with
  | none => (st, .notFound)
  | some server =>
      let st₁ := if server.status = .running then (stopServer st serverId true).1 else st
      ({ st₁ with servers := JsMap.delete st₁.servers serverId }, .deleted)

/-- Install steps of the `InstallStep` interface, with the `params` fields
actually read by `executeInstallStep` (serverManager.ts lines 271-289). -/
inductive InstallStep
  | download (url : String) (filename : String)
  | extractArchive (archive : String)
  | execute (command : String) (args : List String)
  | copy (source : String) (target : String)
  | edit (file : String) (content : String)
deriving DecidableEq, Repr

/-- Contents of the instance's working directory: filename to content. -/
abbrev Fs := List (String × String)

/-- Fault model for the filesystem / process primitives a step calls:
whether `fs.writeFile` on a file succeeds, whether `fs.copyFile` from a
source succeeds (and what content it copies), and whether an external
command exits successfully. -/
structure StepEnv where
  writeOk : String → Bool
  copyOk : String → Bool
  copyContent : String → String
  execOk : String → Bool

/-- `ServerManager.executeInstallStep` (serverManager.ts lines 271-289).
`download` (`downloadFile`, line 615) and `extract` (line 277) are
unimplemented TODO stubs that only log, so they change nothing and never
fail. A failing primitive rejects with its raw cause — modelled here as the
offending file / source / command name; no step index is attached anywhere. -/
def executeInstallStep (env : StepEnv) (fs : Fs) :
    InstallStep → Except String Fs
  | .download _ _ => .ok fs
  | .extractArchive _ => .ok fs
  | .execute command _ =>
      if env.execOk command then .ok fs else .error command
  | .copy source target =>
      if env.copyOk source then .ok (JsMap.set fs target (env.copyContent source))
      else .error source
  | .edit file content =>
      if env.writeOk file then .ok (JsMap.set fs file content)
      else .error file

/-- The step loop of `ServerManager.installServer` (serverManager.ts lines
258-260): `for (const step of template.installSteps) await
this.executeInstallStep(server, step)`. The first rejected step aborts the
loop; the raw cause propagates to the caller and the directory keeps the
partial state reached so far. -/
def runInstallSteps (env : StepEnv) (fs : Fs) :
    List InstallStep → Fs × Option String
  | [] => (fs, none)
  | step :: rest =>
      match executeInstallStep env fs step with
      | .ok fs₂ => runInstallSteps env fs₂ rest
      | .error e => (fs, some e)

/-- A metrics sample: the values produced by `getProcessMemoryUsage` and
`getProcessCPUUsage` for a pid. -/
structure MetricsSample where
  memory : Nat
  cpu : Nat
deriving DecidableEq, Repr

/-- `ServerManager.updateServerMetrics` (serverManager.ts lines 506-535).
Returns unchanged when the server or its process handle is missing. A
throwing sample (`sampleRes = none`) is caught by the surrounding
`try/catch`, which only logs at debug level, so the state is returned
unchanged. On success only the resource snapshot fields are overwritten
(`queryMinecraftServer` is a TODO stub returning null, so `currentPlayers`
is never written; a failing `database.updateServer` is caught by the same
`catch` and does not undo the in-memory mutation). -/
def updateServerMetrics (st : ManagerState) (serverId : String)
    (sampleRes : Option MetricsSample) (now : Nat) : ManagerState :=
  match JsMap.get st.servers serverId, JsMap.get st.processes serverId with
  | some server, some _ =>
      match sampleRes with
      | none => st
      | some sample =>
          let server' := { server with
            memory := sample.memory,
            cpu := sample.cpu,
            uptime := now - server.lastStarted.getD 0 }
          { st with servers := JsMap.set st.servers serverId server' }
  | _, _ => st

/-- One round of the per-server monitoring intervals installed by
`startServerMonitoring` (serverManager.ts lines 484-490): each monitored id
gets its own independent `setInterval` firing `updateServerMetrics`; a round
in which every interval has fired once is modelled as a fold over the ids,
with `sample id` the outcome of sampling that id. -/
def metricsCycle (st : ManagerState) (ids : List String)
    (sample : String → Option MetricsSample) (now : Nat) : ManagerState :=
  ids.foldl (fun acc serverId => updateServerMetrics acc serverId (sample serverId) now) st

/-- `ServerManager.createBackup` (serverManager.ts lines 587-610). The
archive-creation logic is a TODO stub: the returned record has `size := 0`
and `path := ""`, no artifact is written (`artifacts`, the path-to-size store
of archive files, is returned untouched), the record is appended to
`server.backups`, and the method never fails for an existing server. -/
def createBackup (st : ManagerState) (artifacts : List (String × Nat))
    (serverId : String) (name : Option String) (now : Nat) :
    ManagerState × List (String × Nat) × Option Backup :=
  match JsMap.get st.servers serverId with
  | none => (st, artifacts, none)
  | some server =>
      let backup : Backup :=
        { id := toString now, serverId := server.id,
          name := name.getD (toString now),
          size := 0, path := "", createdAt := now }
      let server' := { server with backups := server.backups ++ [backup] }
      ({ st with servers := JsMap.set st.servers serverId server' },
       artifacts, some backup)

/-- Consistency of the pid binding with the status, as the spec's invariant
states it: the pid exists iff status is STARTING, RUNNING or STOPPING. -/
def pidStatusConsistent (s : Server) : Bool :=
  s.pid.isSome ==
    (s.status == .starting || s.status == .running || s.status == .stopping)

/-! Concrete fixture states used by counterexamples and witnesses. -/

def idA : String := "s1"

def idB : String := "s2"

def emptyPath : String := ""

/-- A freshly created server, as `createServer` builds it (STOPPED, no pid,
`autoRestart: false`). -/
def baseServer : Server :=
  { id := "s1", name := "alpha", status := .stopped, pid := none,
    autoRestart := false, lastStarted := none, memory := 0, cpu := 0,
    uptime := 0, currentPlayers := 0, backups := [], logs := [] }

def proc7 : ChildProcess :=
  { pid := 7, killed := false, exited := false, sigkillSent := false }

def proc8 : ChildProcess :=
  { pid := 8, killed := false, exited := false, sigkillSent := false }

def runningServer : Server := { baseServer with status := .running, pid := some 7 }

def runningServerAR : Server := { runningServer with autoRestart := true }

def stoppingServer : Server := { baseServer with status := .stopping, pid := some 7 }

def crashedServer : Server := { baseServer with status := .crashed }

def serverB : Server := { baseServer with id := "s2", status := .running, pid := some 8 }

def stStopped : ManagerState := { servers := [(idA, baseServer)], processes := [] }

def stRunning : ManagerState :=
  { servers := [(idA, runningServer)], processes := [(idA, proc7)] }

def stRunningAR : ManagerState :=
  { servers := [(idA, runningServerAR)], processes := [(idA, proc7)] }

def stStoppingProc : ManagerState :=
  { servers := [(idA, stoppingServer)], processes := [(idA, proc7)] }

def stCrashedNoProc : ManagerState :=
  { servers := [(idA, crashedServer)], processes := [] }

def stTwo : ManagerState :=
  { servers := [(idA, runningServer), (idB, serverB)],
    processes := [(idA, proc7), (idB, proc8)] }

/-! Claim theorems. -/

/-- C1 (counterexample): calling `startServer` on an instance whose status is
STOPPING — with its process still bound — is *not* rejected: the guard only
checks RUNNING, so a fresh process is spawned, a new handle replaces the old
one in the process map, and the call returns success. This refutes the claim
that start is rejected from Starting, Running and Stopping with no spawn. -/
theorem start_from_stopping_spawns :
    (startServer stStoppingProc idA true 41 100).2 = .started ∧
    procAt (startServer stStoppingProc idA true 41 100).1 idA =
      some { pid := 41, killed := false, exited := false, sigkillSent := false } ∧
    statusAt (startServer stStoppingProc idA true 41 100).1 idA = some .running := by
  decide

/-- C1 (amended): `startServer` rejects (returns `false` without any state
change and with no spawn) exactly when the status is RUNNING; from every
other status — including STARTING and STOPPING — a successful spawn installs
a new process handle and moves the status to RUNNING, so a second start call
in direct succession finds RUNNING and is rejected with exactly one live
process spawned. -/
theorem start_rejected_only_when_running (st : ManagerState) (serverId : String)
    (spawnOk spawnOk' : Bool) (newPid newPid' now now' : Nat) (s : Server)
    (hs : JsMap.get st.servers serverId = some s) :
    (s.status = .running → startServer st serverId spawnOk newPid now = (st, .alreadyRunning)) ∧
    (s.status ≠ .running → spawnOk = true →
      (startServer st serverId spawnOk newPid now).2 = .started ∧
      statusAt (startServer st serverId spawnOk newPid now).1 serverId = some .running ∧
      procAt (startServer st serverId spawnOk newPid now).1 serverId =
        some { pid := newPid, killed := false, exited := false, sigkillSent := false } ∧
      startServer (startServer st serverId spawnOk newPid now).1 serverId spawnOk' newPid' now' =
        ((startServer st serverId spawnOk newPid now).1, .alreadyRunning)) := by
  constructor
  · intro hr
    simp [startServer, hs, hr]
  · intro hr hok
    subst hok
    simp [startServer, hs, hr, statusAt, procAt, JsMap.get_set_self, Server.applyStart]

/-- C1 witness: a start on a concrete STOPPED instance spawns, and an
immediately following second start is rejected with the state unchanged. -/
theorem start_rejected_only_when_running_witness :
    (startServer stStopped idA true 9 5).2 = StartResult.started ∧
    startServer (startServer stStopped idA true 9 5).1 idA true 10 6 =
      ((startServer stStopped idA true 9 5).1, StartResult.alreadyRunning) := by
  have h := (start_rejected_only_when_running stStopped idA true true 9 10 5 6
    baseServer (by decide)).2 (by decide) rfl
  exact ⟨h.1, h.2.2.2⟩

/-- C2 (counterexample): a deliberate graceful `stopServer` puts the instance
in STOPPING; when the process then exits with a non-zero code (`some 1`, as a
SIGTERM-terminated or failing process does), the exit handler sets CRASHED,
not STOPPED — the handler looks only at `code === 0` and has no notion of a
stop being in flight. This also reaches CRASHED from STOPPING rather than
from RUNNING. -/
theorem stop_then_nonzero_exit_crashes :
    statusAt (stopServer stRunning idA false).1 idA = some .stopping ∧
    statusAt (onProcessExit (stopServer stRunning idA false).1 idA (some 1)).1 idA =
      some .crashed := by
  decide

/-- C2 (amended): for every supervised process exit event, the instance
transitions to STOPPED exactly when the exit code is 0 and to CRASHED
otherwise, regardless of whether a `stop()` was in flight; the pid is cleared
and the process handle removed in both cases, so CRASHED is reachable from
any status the instance held at exit time (including STOPPING). -/
theorem exit_status_decided_by_code (st : ManagerState) (serverId : String)
    (code : Option Int) (s : Server)
    (hs : JsMap.get st.servers serverId = some s) :
    statusAt (onProcessExit st serverId code).1 serverId =
      some (if code = some 0 then .stopped else .crashed) ∧
    pidAt (onProcessExit st serverId code).1 serverId = some none ∧
    procAt (onProcessExit st serverId code).1 serverId = none := by
  simp [onProcessExit, hs, statusAt, pidAt, procAt, JsMap.get_set_self,
    JsMap.get_delete_self, Server.applyExit]

/-- C2 witness: a clean exit (code 0) of the concrete running instance ends
in STOPPED with the pid cleared and the handle removed. -/
theorem exit_status_decided_by_code_witness :
    statusAt (onProcessExit stRunning idA (some 0)).1 idA = some ServerStatus.stopped ∧
    pidAt (onProcessExit stRunning idA (some 0)).1 idA = some none ∧
    procAt (onProcessExit stRunning idA (some 0)).1 idA = none := by
  have h := exit_status_decided_by_code stRunning idA (some 0) runningServer (by decide)
  exact ⟨by simpa using h.1, h.2.1, h.2.2⟩

/-- C3 (counterexample): with `autoRestart = true`, a *deliberate* graceful
stop whose process then exits with a non-zero code (as a signal-terminated
process does) schedules an auto-restart after the 5s cool-down: the exit
handler tests only `autoRestart && code !== 0` and cannot tell a deliberate
stop from a crash. This refutes the claim that a deliberate stop never
triggers an auto-restart. -/
theorem deliberate_stop_schedules_restart :
    (onProcessExit (stopServer stRunningAR idA false).1 idA (some 1)).2 =
      some autoRestartDelayMs := by
  decide

/-- C3 (amended): the exit handler schedules at most one start attempt, with
the fixed 5-second cool-down, and it does so exactly when the instance's
`autoRestart` flag is set and the exit code is non-zero — whether or not the
exit was caused by a deliberate stop; in particular with `autoRestart =
false` no restart is ever scheduled after an exit. -/
theorem restart_iff_autorestart_and_nonzero_exit (st : ManagerState)
    (serverId : String) (code : Option Int) (s : Server)
    (hs : JsMap.get st.servers serverId = some s) :
    (onProcessExit st serverId code).2 =
      (if s.autoRestart ∧ code ≠ some 0 then some autoRestartDelayMs else none) := by
  simp [onProcessExit, hs]

/-- C3 witness: with `autoRestart = false` (the concrete running instance) an
abnormal exit schedules no restart. -/
theorem restart_iff_autorestart_and_nonzero_exit_witness :
    (onProcessExit stRunning idA (some 1)).2 = none := by
  have h := restart_iff_autorestart_and_nonzero_exit stRunning idA (some 1)
    runningServer (by decide)
  simpa [runningServer, baseServer] using h

/-- C4: evidence for the grace-period bug. A graceful `stopServer` stores the
SIGTERM-signalled handle, whose Node `killed` flag is already true because
the SIGTERM was delivered; the 10-second timeout body tests `!process.killed`
— not whether the process exited — so it never sends the SIGKILL: the
callback is the identity and `sigkillSent` stays as it was, even for a
process that has not exited. The forced kill promised by the claim (and by
the code's own comment) can therefore never occur on the graceful path. -/
theorem graceful_stop_never_force_kills (st : ManagerState) (serverId : String)
    (s : Server) (p : ChildProcess)
    (hs : JsMap.get st.servers serverId = some s)
    (hp : JsMap.get st.processes serverId = some p) :
    procAt (stopServer st serverId false).1 serverId = some (p.kill sigterm) ∧
    (p.kill sigterm).killed = true ∧
    stopTimeoutCallback (p.kill sigterm) = p.kill sigterm ∧
    (p.kill sigterm).sigkillSent = p.sigkillSent := by
  refine ⟨?_, rfl, rfl, ?_⟩
  · simp [stopServer, hs, hp, procAt, JsMap.get_set_self]
  · simp [ChildProcess.kill, sigterm, sigkill]

/-- C4 witness: the concrete running instance's process never exits, yet
after the graceful stop and the elapsed grace period no SIGKILL has been
sent. -/
theorem graceful_stop_never_force_kills_witness :
    proc7.exited = false ∧
    stopTimeoutCallback (proc7.kill sigterm) = proc7.kill sigterm ∧
    (proc7.kill sigterm).sigkillSent = false := by
  have h := graceful_stop_never_force_kills stRunning idA runningServer proc7
    (by decide) (by decide)
  exact ⟨rfl, h.2.2.1, by simpa [proc7] using h.2.2.2⟩

/-! Concrete installation fixtures: the spec's `[download, edit]` example
with a failing edit step. -/

def eulaFile : String := "eula.txt"

def eulaContent : String := "eula=true"

def serverJar : String := "server.jar"

def jarUrl : String := "https://example.org/server.jar"

/-- Environment in which every `fs.writeFile` fails (the edit step's cause)
while copy and execute primitives succeed. -/
def envEditFails : StepEnv :=
  { writeOk := fun _ => false, copyOk := fun _ => true,
    copyContent := fun _ => emptyPath, execOk := fun _ => true }

/-- The spec's example template steps: a download followed by an edit. -/
def specExampleSteps : List InstallStep :=
  [.download jarUrl serverJar, .edit eulaFile eulaContent]

def editOnly : List InstallStep := [.edit eulaFile eulaContent]

/-- C5 (counterexample): running the `[download, edit]` example in a fresh
directory with the edit failing (a) yields the raw cause of the edit step
with *no* step index attached — the very same error value is produced when
the identical edit fails at index 0 of a one-step list, so the error cannot
carry the failing step's index — and (b) leaves no downloaded file, because
`downloadFile` is an unimplemented stub that writes nothing. This refutes
both `InstallStepFailed{index:1}` and the presence of the downloaded file. -/
theorem install_error_carries_no_index :
    runInstallSteps envEditFails [] specExampleSteps = ([], some eulaFile) ∧
    runInstallSteps envEditFails [] editOnly = ([], some eulaFile) ∧
    JsMap.get (runInstallSteps envEditFails [] specExampleSteps).1 serverJar = none := by
  decide

/-- C5 (amended): the installation loop executes the steps strictly in list
order and the first failing step aborts all remaining steps, propagating that
step's raw cause — with no step index or wrapper attached — while the
directory keeps whatever partial state existed at failure time; equivalently,
running `l₁ ++ l₂` runs `l₂` from `l₁`'s final state exactly when `l₁`
succeeded and otherwise stops at `l₁`'s failure state and cause. (The
`download` and `extract` steps are unimplemented no-op stubs, so the spec's
example leaves no downloaded file behind.) -/
theorem install_in_order_abort_on_first_failure (env : StepEnv) (fs : Fs)
    (step : InstallStep) (rest l₁ l₂ : List InstallStep) :
    runInstallSteps env fs (step :: rest) =
      (match executeInstallStep env fs step with
       | .ok fs₂ => runInstallSteps env fs₂ rest
       | .error e => (fs, some e)) ∧
    runInstallSteps env fs (l₁ ++ l₂) =
      (match runInstallSteps env fs l₁ with
       | (fs₂, none) => runInstallSteps env fs₂ l₂
       | (fs₂, some e) => (fs₂, some e)) := by
  constructor
  · rfl
  · induction l₁ generalizing fs with
    | nil => rfl
    | cons s tail ih =>
        cases h : executeInstallStep env fs s with
        | ok fs₂ =>
            simpa only [List.cons_append, runInstallSteps, h] using ih fs₂
        | error e =>
            simp only [List.cons_append, runInstallSteps, h]

/-- C6: evidence that `createBackup` is an unimplemented stub. For any
existing server it returns a record whose `size` is 0 and whose `path` is
empty, writes no artifact at all (the artifact store is returned untouched,
so nothing exists at the record's path and nothing of positive size was
produced), never fails with `BackupFailed`, and leaves the instance's run
state (status and process binding) unchanged. The claim's disjunction —
record implies a fully-written artifact of positive size at the record's
path — is falsified on every call. -/
theorem createBackup_stub_empty_record (st : ManagerState)
    (artifacts : List (String × Nat)) (serverId : String) (name : Option String)
    (now : Nat) (s : Server)
    (hs : JsMap.get st.servers serverId = some s) :
    (createBackup st artifacts serverId name now).2.1 = artifacts ∧
    ((createBackup st artifacts serverId name now).2.2).map Backup.size = some 0 ∧
    ((createBackup st artifacts serverId name now).2.2).map Backup.path = some emptyPath ∧
    statusAt (createBackup st artifacts serverId name now).1 serverId = some s.status ∧
    procAt (createBackup st artifacts serverId name now).1 serverId = procAt st serverId := by
  simp [createBackup, hs, statusAt, procAt, JsMap.get_set_self, emptyPath]

/-- C6 witness: a backup of the concrete running instance, with an empty
artifact store, produces a size-0 record with an empty path, writes nothing,
and leaves the instance running. -/
theorem createBackup_stub_empty_record_witness :
    (createBackup stRunning [] idA none 42).2.1 = [] ∧
    ((createBackup stRunning [] idA none 42).2.2).map Backup.size = some 0 ∧
    statusAt (createBackup stRunning [] idA none 42).1 idA = some ServerStatus.running := by
  have h := createBackup_stub_empty_record stRunning [] idA none 42 runningServer (by decide)
  exact ⟨h.1, h.2.1, by simpa [runningServer, baseServer] using h.2.2.2.1⟩

/-- Helper: a throwing metrics sample is caught and skipped — the state is
returned completely unchanged. -/
theorem updateServerMetrics_skip_on_failure (st : ManagerState)
    (serverId : String) (now : Nat) :
    updateServerMetrics st serverId none now = st := by
  unfold updateServerMetrics
  cases JsMap.get st.servers serverId <;> cases JsMap.get st.processes serverId <;> rfl

/-- Helper: a metrics update never touches the `processes` map. -/
theorem processes_updateServerMetrics (st : ManagerState) (serverId : String)
    (r : Option MetricsSample) (now : Nat) :
    (updateServerMetrics st serverId r now).processes = st.processes := by
  unfold updateServerMetrics
  cases JsMap.get st.servers serverId <;> cases JsMap.get st.processes serverId <;>
    cases r <;> rfl

/-- Helper: a metrics update never changes any non-metric field of any
server (nor which servers exist). -/
theorem coreAt_updateServerMetrics (st : ManagerState) (serverId j : String)
    (r : Option MetricsSample) (now : Nat) :
    coreAt (updateServerMetrics st serverId r now) j = coreAt st j := by
  cases hs : JsMap.get st.servers serverId with
  | none => simp [updateServerMetrics, hs]
  | some server =>
      cases hp : JsMap.get st.processes serverId with
      | none => simp [updateServerMetrics, hs, hp]
      | some p =>
          cases r with
          | none => simp [updateServerMetrics, hs, hp]
          | some sample =>
              by_cases hj : j = serverId
              · subst hj
                simp [updateServerMetrics, hs, hp, coreAt, JsMap.get_set_self, Server.core]
              · simp [updateServerMetrics, hs, hp, coreAt,
                  JsMap.get_set_ne _ _ _ _ hj]

/-- Helper: a metrics update never changes the server entries at other
keys. -/
theorem servers_get_updateServerMetrics_ne (st : ManagerState) (serverId j : String)
    (r : Option MetricsSample) (now : Nat) (hj : j ≠ serverId) :
    JsMap.get (updateServerMetrics st serverId r now).servers j =
      JsMap.get st.servers j := by
  cases hs : JsMap.get st.servers serverId with
  | none => simp [updateServerMetrics, hs]
  | some server =>
      cases hp : JsMap.get st.processes serverId with
      | none => simp [updateServerMetrics, hs, hp]
      | some p =>
          cases r with
          | none => simp [updateServerMetrics, hs, hp]
          | some sample =>
              simp [updateServerMetrics, hs, hp, JsMap.get_set_ne _ _ _ _ hj]

/-- Helper: the metrics update of one id computes the same result entry at
that id in two states that agree there. -/
theorem servers_get_updateServerMetrics_congr (st₁ st₂ : ManagerState)
    (serverId : String) (r : Option MetricsSample) (now : Nat)
    (h1 : JsMap.get st₁.servers serverId = JsMap.get st₂.servers serverId)
    (h2 : JsMap.get st₁.processes serverId = JsMap.get st₂.processes serverId) :
    JsMap.get (updateServerMetrics st₁ serverId r now).servers serverId =
      JsMap.get (updateServerMetrics st₂ serverId r now).servers serverId := by
  cases hs : JsMap.get st₁.servers serverId with
  | none =>
      simp [updateServerMetrics, hs, hs ▸ h1.symm]
  | some server =>
      cases hp : JsMap.get st₁.processes serverId with
      | none =>
          simp [updateServerMetrics, hs, hp, hs ▸ h1.symm, hp ▸ h2.symm]
      | some p =>
          cases r with
          | none => simp [updateServerMetrics, hs, hp, hs ▸ h1.symm, hp ▸ h2.symm]
          | some sample =>
              simp [updateServerMetrics, hs, hp, hs ▸ h1.symm, hp ▸ h2.symm,
                JsMap.get_set_self]

/-- Helper: a full monitoring round keeps two states in agreement away from
a distinguished id `i` when their sampling outcomes agree away from `i` —
the formal content of "a failure for one instance never affects the
collection for other instances". -/
theorem metricsCycle_agree (ids : List String) (i : String)
    (st₁ st₂ : ManagerState) (sample sample' : String → Option MetricsSample)
    (now : Nat)
    (hp : st₁.processes = st₂.processes)
    (hs : ∀ j, j ≠ i → JsMap.get st₁.servers j = JsMap.get st₂.servers j)
    (hr : ∀ k, k ≠ i → sample k = sample' k) :
    (metricsCycle st₁ ids sample now).processes =
      (metricsCycle st₂ ids sample' now).processes ∧
    ∀ j, j ≠ i → JsMap.get (metricsCycle st₁ ids sample now).servers j =
      JsMap.get (metricsCycle st₂ ids sample' now).servers j := by
  induction ids generalizing st₁ st₂ with
  | nil => exact ⟨hp, hs⟩
  | cons a rest ih =>
      have step : metricsCycle st₁ (a :: rest) sample now =
          metricsCycle (updateServerMetrics st₁ a (sample a) now) rest sample now := rfl
      have step' : metricsCycle st₂ (a :: rest) sample' now =
          metricsCycle (updateServerMetrics st₂ a (sample' a) now) rest sample' now := rfl
      rw [step, step']
      apply ih
      · rw [processes_updateServerMetrics, processes_updateServerMetrics, hp]
      · intro j hj
        by_cases ha : a = i
        · subst ha
          rw [servers_get_updateServerMetrics_ne _ _ _ _ _ hj,
            servers_get_updateServerMetrics_ne _ _ _ _ _ hj]
          exact hs j hj
        · by_cases hja : j = a
          · subst hja
            rw [hr j ha]
            exact servers_get_updateServerMetrics_congr st₁ st₂ j (sample' j) now
              (hs j ha) (by rw [hp])
          · rw [servers_get_updateServerMetrics_ne _ _ _ _ _ hja,
              servers_get_updateServerMetrics_ne _ _ _ _ _ hja]
            exact hs j hj

/-- Helper: a full monitoring round never changes any server's non-metric
fields. -/
theorem coreAt_metricsCycle (ids : List String) (st : ManagerState)
    (sample : String → Option MetricsSample) (now : Nat) (j : String) :
    coreAt (metricsCycle st ids sample now) j = coreAt st j := by
  induction ids generalizing st with
  | nil => rfl
  | cons a rest ih =>
      have step : metricsCycle st (a :: rest) sample now =
          metricsCycle (updateServerMetrics st a (sample a) now) rest sample now := rfl
      rw [step, ih, coreAt_updateServerMetrics]

/-- C7: a failure while sampling one instance's metrics is skipped — the
state is returned unchanged for that tick — a full monitoring round never
changes any instance's status or any field outside the resource snapshot,
and the sampling outcome of one instance (success or failure) has no effect
on any other instance's registry entry over a round. -/
theorem metrics_sampling_failure_skipped :
    (∀ st serverId now, updateServerMetrics st serverId none now = st) ∧
    (∀ st ids sample now j,
      coreAt (metricsCycle st ids sample now) j = coreAt st j) ∧
    (∀ st ids i sample sample' now j,
      (∀ k, k ≠ i → sample k = sample' k) → j ≠ i →
      JsMap.get (metricsCycle st ids sample now).servers j =
        JsMap.get (metricsCycle st ids sample' now).servers j) :=
  ⟨updateServerMetrics_skip_on_failure,
   fun st ids sample now j => coreAt_metricsCycle ids st sample now j,
   fun st ids i sample sample' now j hr hj =>
     (metricsCycle_agree ids i st st sample sample' now rfl
       (fun _ _ => rfl) hr).2 j hj⟩

/-- Sampling outcomes for the two-server fixture: instance A's sampling
fails, instance B's succeeds. -/
def sampleFailA : String → Option MetricsSample :=
  fun k => if k = idA then none else some { memory := 5, cpu := 3 }

/-- Sampling outcomes where instance A's sampling succeeds instead. -/
def sampleOkA : String → Option MetricsSample :=
  fun k => if k = idA then some { memory := 9, cpu := 9 } else some { memory := 5, cpu := 3 }

/-- C7 witness: in the two-server fixture, whether instance A's sampling
fails or succeeds makes no difference to instance B's entry after a full
round. -/
theorem metrics_sampling_failure_skipped_witness :
    JsMap.get (metricsCycle stTwo [idA, idB] sampleFailA 50).servers idB =
      JsMap.get (metricsCycle stTwo [idA, idB] sampleOkA 50).servers idB :=
  metrics_sampling_failure_skipped.2.2 stTwo [idA, idB] idA sampleFailA sampleOkA 50 idB
    (fun k hk => by simp [sampleFailA, sampleOkA, hk]) (by decide)

/-- C8 (counterexample): the `error` handler breaks the pid/status invariant.
On the concrete running instance — where the invariant holds — the handler
sets CRASHED but leaves the pid field set (and the process handle bound), so
afterwards the pid exists while the status is outside
{STARTING, RUNNING, STOPPING}. -/
theorem error_handler_breaks_pid_invariant :
    pidStatusConsistent runningServer = true ∧
    (JsMap.get (onProcessError stRunning idA).servers idA).map pidStatusConsistent =
      some false ∧
    statusAt (onProcessError stRunning idA) idA = some .crashed ∧
    pidAt (onProcessError stRunning idA) idA = some (some 7) ∧
    procAt (onProcessError stRunning idA) idA = some proc7 := by
  decide

/-- C8 (amended): the pid-iff-status consistency is established by the exit
handler (pid cleared, status STOPPED or CRASHED) and by a successful start
(pid recorded, status RUNNING), but it is not preserved by the other two
mutators: the `error` handler sets CRASHED while leaving the pid field
exactly as it was, and `stopServer` on an instance with no bound process
sets STOPPED while leaving the pid field exactly as it was — so the "pid
set iff status ∈ {Starting, Running, Stopping}" invariant does not hold
across all handlers. -/
theorem pid_consistency_not_preserved_by_all_handlers (s : Server)
    (code : Option Int) (newPid now : Nat) :
    pidStatusConsistent (s.applyExit code) = true ∧
    pidStatusConsistent (s.applyStart newPid now) = true ∧
    (s.applyError).pid = s.pid ∧ (s.applyError).status = .crashed ∧
    (s.applyStopNoProc).pid = s.pid ∧ (s.applyStopNoProc).status = .stopped := by
  refine ⟨?_, rfl, rfl, rfl, rfl, rfl⟩
  rcases eq_or_ne code (some 0) with h | h <;>
    simp [Server.applyExit, pidStatusConsistent, h] <;> decide

/-- C9 (counterexample): `deleteServer` on an instance in STOPPING — whose
process is still live (not exited, not even signalled) — removes the
instance from the registry while the process handle stays bound in the
process map, untouched: an instance is deleted without the supervisor
confirming (or even requesting) that its process is stopped. -/
theorem delete_stopping_leaves_live_process :
    (deleteServer stStoppingProc idA).2 = .deleted ∧
    JsMap.get (deleteServer stStoppingProc idA).1.servers idA = none ∧
    procAt (deleteServer stStoppingProc idA).1 idA = some proc7 ∧
    proc7.exited = false ∧ proc7.killed = false := by
  decide

/-- C9 (amended): `deleteServer` always removes the registry entry
immediately; it issues a forced stop only when the status is exactly RUNNING
— in which case the bound handle merely has a SIGKILL recorded, with no
waiting for the exit event — and for every other status the process map is
left completely untouched, so an instance whose process is still bound and
live can be deleted. -/
theorem delete_removes_entry_without_exit_wait (st : ManagerState)
    (serverId : String) (s : Server)
    (hs : JsMap.get st.servers serverId = some s) :
    (deleteServer st serverId).2 = .deleted ∧
    JsMap.get (deleteServer st serverId).1.servers serverId = none ∧
    (s.status ≠ .running → (deleteServer st serverId).1.processes = st.processes) ∧
    (s.status = .running →
      procAt (deleteServer st serverId).1 serverId =
        (procAt st serverId).map (fun p => p.kill sigkill)) := by
  by_cases hr : s.status = .running
  · cases hp : JsMap.get st.processes serverId with
    | none =>
        simp [deleteServer, stopServer, hs, hp, hr, procAt,
          JsMap.get_delete_self]
    | some p =>
        simp [deleteServer, stopServer, hs, hp, hr, procAt,
          JsMap.get_delete_self, JsMap.get_set_self]
  · simp [deleteServer, hs, hr, procAt, JsMap.get_delete_self]

/-- C9 witness: deleting the concrete STOPPING instance removes its registry
entry and leaves the process map untouched. -/
theorem delete_removes_entry_without_exit_wait_witness :
    (deleteServer stStoppingProc idA).2 = DeleteResult.deleted ∧
    JsMap.get (deleteServer stStoppingProc idA).1.servers idA = none ∧
    (deleteServer stStoppingProc idA).1.processes = stStoppingProc.processes := by
  have h := delete_removes_entry_without_exit_wait stStoppingProc idA
    stoppingServer (by decide)
  exact ⟨h.1, h.2.1, h.2.2.1 (by decide)⟩

/-- C10: `stopServer` on any existing instance with no bound process handle
sets the status to STOPPED — whatever the prior status was — and returns
success, changing nothing else; in particular a CRASHED instance is silently
moved to STOPPED. -/
theorem stop_without_process_succeeds_stopped (st : ManagerState)
    (serverId : String) (force : Bool) (s : Server)
    (hs : JsMap.get st.servers serverId = some s)
    (hp : JsMap.get st.processes serverId = none) :
    stopServer st serverId force =
      ({ st with servers := JsMap.set st.servers serverId s.applyStopNoProc },
       .success) ∧
    statusAt (stopServer st serverId force).1 serverId = some .stopped ∧
    pidAt (stopServer st serverId force).1 serverId = some s.pid := by
  simp [stopServer, hs, hp, statusAt, pidAt, JsMap.get_set_self,
    Server.applyStopNoProc]

/-- C10 witness: stopping the concrete CRASHED instance (which has no bound
process) returns success and leaves it STOPPED. -/
theorem stop_without_process_succeeds_stopped_witness :
    statusAt (stopServer stCrashedNoProc idA true).1 idA = some ServerStatus.stopped ∧
    (stopServer stCrashedNoProc idA true).2 = StopResult.success := by
  have h := stop_without_process_succeeds_stopped stCrashedNoProc idA true
    crashedServer (by decide) (by decide)
  exact ⟨h.2.1, by rw [h.1]⟩
